import Mathlib

/-!
Verification of the iminuit tutorial-notebook repository.

The repository consists of three tutorial notebooks:
* the Cython notebook (src/unnamed/part_000, first document): compiles
  `cython_func` (no embedded signature) and `cython_f`
  (with `@cython.embedsignature(True)`), and fits them with Minuit;
* the generic least-squares notebook (src/unnamed/part_000, second document):
  defines `LeastSquares` (variadic `__call__`) and `BetterLeastSquares`
  (attaches `make_func_code(describe(model)[1:])` as `func_code`);
* the external-minimizer notebook (src/tutorial/iminuit_and_external_minimizer.ipynb):
  initializes Minuit via `from_array_func` from a scipy result, runs `hesse`
  without `migrad`, and shows that `minos` raises RuntimeError.

The external library (iminuit) is not part of the repository; its
introspection and fit interface are modelled from the spec and from the
behaviour recorded in the notebooks' output cells.  The repository's own
code (the `LeastSquares` / `BetterLeastSquares` classes and the notebooks'
cell sequences) is embedded directly from the source.
-/

/-- Modelled from the spec: the introspection-relevant facet of a Python
callable as the external library sees it.  `nativeSig` is the callable's
concrete introspectable signature (its ordered parameter names), present for
plain Python functions and Cython functions compiled with
`embedsignature(True)`, absent for compiled functions without embedded
signature metadata and for wrapper objects whose `__call__` is variadic.
`func_code` is synthesized signature metadata attached to the object. -/
structure Callable where
  nativeSig : Option (List String)
  func_code : Option (List String)
deriving DecidableEq

/-- Modelled from the spec: `make_func_code` builds a synthetic func_code
object whose parameter-name sequence is the given list; we keep just the
ordered name list. -/
def make_func_code (names : List String) : List String :=
  names

/-- Modelled from the spec: the external library's `describe` introspection.
Attached signature metadata (`func_code`) is read in place of native
introspection; otherwise the native signature is used; if neither is
available it raises `TypeError("Unable to obtain function signature")`. -/
def describe (c : Callable) : Except String (List String) :=
  match c.func_code with
  | some names => Except.ok names
  | none =>
    match c.nativeSig with
    | some names => Except.ok names
    | none => Except.error "Unable to obtain function signature"

/-- Modelled from the spec: Minuit construction discovers one fit variable
per parameter name, taken from the explicit `name=(...)` argument when the
caller supplies it and from `describe` introspection otherwise.  The result
is the ordered list of bound fit-variable names, or the signature-discovery
TypeError. -/
def Minuit.construct (c : Callable) (explicitNames : Option (List String)) :
    Except String (List String) :=
  match explicitNames with
  | some ns => Except.ok ns
  | none => describe c

/-- The function `cython_func` from the Cython notebook: compiled without
`embedsignature`, so it exposes no native signature and carries no
func_code. -/
def cython_func_sig : Callable :=
  ⟨none, none⟩

/-- The function `cython_f` from the Cython notebook: compiled with
`@cython.embedsignature(True)`, so introspection sees parameters
`(x, y, z)`. -/
def cython_f_sig : Callable :=
  ⟨some ["x", "y", "z"], none⟩

/-- The `LeastSquares` class of the generic least-squares notebook:
`__init__(self, model, x, y)` stores the model and the data arrays.
Numeric values are embedded as exact rationals; a model maps an x-value and
the parameter list to a predicted y-value. -/
structure LeastSquares where
  model : ℚ → List ℚ → ℚ
  x : List ℚ
  y : List ℚ

/-- Elementwise numpy-style subtraction of two equal-length arrays. -/
def npSub (a b : List ℚ) : List ℚ :=
  List.zipWith (fun u v => u - v) a b

/-- Elementwise numpy-style squaring. -/
def npSquare (a : List ℚ) : List ℚ :=
  a.map (fun t => t ^ 2)

/-- Summation `np.sum` over an array. -/
def npSum (a : List ℚ) : ℚ :=
  a.sum

/-- Method `LeastSquares.__call__(self, *par)` from the notebook:
`ym = self.model(self.x, *par)` (the model applied elementwise to the
x-array), `chi2 = np.sum((self.y - ym)**2)`. -/
def LeastSquares.call (s : LeastSquares) (par : List ℚ) : ℚ :=
  npSum (npSquare (npSub s.y (s.x.map (fun xi => s.model xi par))))

/-- The unpatched `LeastSquares` instance as introspection sees it: its
`__call__(self, *par)` is variadic, so there is no native signature, and no
func_code is attached. -/
def LeastSquares.asCallable (_s : LeastSquares) : Callable :=
  ⟨none, none⟩

/-- The `BetterLeastSquares` class: the inherited `LeastSquares` state plus
the `func_code` name list attached in `__init__`. -/
structure BetterLeastSquares where
  base : LeastSquares
  func_code : List String

/-- Method `BetterLeastSquares.__init__(self, model, x, y)`:
`super().__init__(model, x, y)` followed by
`self.func_code = make_func_code(describe(model)[1:])`.  `msig` is the
model's introspection facet; a TypeError raised by `describe` propagates. -/
def BetterLeastSquares.init (model : ℚ → List ℚ → ℚ) (msig : Callable)
    (x y : List ℚ) : Except String BetterLeastSquares :=
  (describe msig).map (fun names => ⟨⟨model, x, y⟩, make_func_code (names.drop 1)⟩)

/-- The inherited `__call__` of `BetterLeastSquares`: the class overrides
only `__init__`, so calling the wrapper runs `LeastSquares.__call__` on the
inherited state. -/
def BetterLeastSquares.call (b : BetterLeastSquares) (par : List ℚ) : ℚ :=
  b.base.call par

/-- A `BetterLeastSquares` instance as introspection sees it: variadic
`__call__` (no native signature) with the synthesized `func_code`
attached. -/
def BetterLeastSquares.asCallable (b : BetterLeastSquares) : Callable :=
  ⟨none, some b.func_code⟩

/-- The model `line(x, a, b) = a + b * x` of the generic least-squares
notebook, with parameter list `[a, b]`. -/
def line (x : ℚ) (par : List ℚ) : ℚ :=
  par.getD 0 0 + par.getD 1 0 * x

/-- The introspection facet of `line`: a plain Python function with
parameters `(x, a, b)`. -/
def line_sig : Callable :=
  ⟨some ["x", "a", "b"], none⟩

/-- Data `x_data = [1, 2, 3, 4, 5]` from the notebook. -/
def x_data : List ℚ :=
  [1, 2, 3, 4, 5]

/-- Data `y_data = [2, 4, 6, 8, 10]` from the notebook. -/
def y_data : List ℚ :=
  [2, 4, 6, 8, 10]

/-- Instance `lsq = LeastSquares(line, x_data, y_data)` from the notebook. -/
def lsq_example : LeastSquares :=
  ⟨line, x_data, y_data⟩

/-- The value of `BetterLeastSquares(line, x_data, y_data)`. -/
def bls_example : BetterLeastSquares :=
  ⟨⟨line, x_data, y_data⟩, ["a", "b"]⟩

/-- Modelled from the spec: the state of a Minuit instance, as far as the
external-minimizer notebook exercises it — the current parameter values
(`m.args`) and whether a function minimum produced by MIGRAD exists. -/
structure MinuitState where
  args : List ℚ
  hasFunctionMinimum : Bool

/-- Modelled from the spec: `Minuit.from_array_func(fcn, start, ...)`
initializes a Minuit instance at the given parameter values; no MIGRAD
minimum exists yet. -/
def Minuit.from_array_func (start : List ℚ) : MinuitState :=
  ⟨start, false⟩

/-- Assignment `m.args[:] = v` from the notebook: replaces the current
parameter values. -/
def MinuitState.setArgs (_m : MinuitState) (v : List ℚ) : MinuitState :=
  ⟨v, _m.hasFunctionMinimum⟩

/-- Modelled from the spec: `m.hesse()` computes second-derivative-based
errors at the current parameter values and also works without calling
MIGRAD before; we model it as succeeding with the point at which the errors
are computed. -/
def MinuitState.hesse (m : MinuitState) : Except String (List ℚ) :=
  Except.ok m.args

/-- Modelled from the spec: `m.minos()` requires an existing function
minimum produced by MIGRAD and raises RuntimeError otherwise, as recorded
in the notebook's output cell. -/
def MinuitState.minos (m : MinuitState) : Except String Unit :=
  if m.hasFunctionMinimum then Except.ok ()
  else Except.error "MINOS require function to be at the minimum. Run MIGRAD first."

/-- Modelled from the spec: `m.migrad()` minimizes and produces a function
minimum. -/
def MinuitState.migrad (m : MinuitState) : MinuitState :=
  ⟨m.args, true⟩

/-- The kind of error demonstrated (caught and printed via `traceback`) in a
notebook cell. -/
inductive ErrKind
  | typeError
  | runtimeError
deriving DecidableEq

/-- An error demonstrated by a notebook: its kind and message, transcribed
from the notebook's recorded output. -/
structure DemoError where
  kind : ErrKind
  msg : String
deriving DecidableEq

/-- Errors demonstrated by the Cython notebook: cell 3,
`Minuit(cython_func, pedantic=False)` raises
`TypeError: Unable to obtain function signature`. -/
def cythonNotebookErrors : List DemoError :=
  [⟨ErrKind.typeError, "Unable to obtain function signature"⟩]

/-- Errors demonstrated by the generic least-squares notebook: cell 3,
`Minuit(lsq, pedantic=False)` raises
`TypeError: Unable to obtain function signature`. -/
def leastSquaresNotebookErrors : List DemoError :=
  [⟨ErrKind.typeError, "Unable to obtain function signature"⟩]

/-- Errors demonstrated by the external-minimizer notebook: the `m.minos()`
cell raises `RuntimeError: MINOS require function to be at the minimum.
Run MIGRAD first.` -/
def externalMinimizerNotebookErrors : List DemoError :=
  [⟨ErrKind.runtimeError,
    "MINOS require function to be at the minimum. Run MIGRAD first."⟩]

/-- All errors demonstrated anywhere in the repository's notebooks. -/
def allNotebookErrors : List DemoError :=
  cythonNotebookErrors ++ leastSquaresNotebookErrors ++ externalMinimizerNotebookErrors

/-- The kinds of step a notebook statement can perform, for the cell-order
claims: importing the optimizer library, defining or compiling an objective
function, patching a function's metadata (attaching a func_code),
constructing a Minuit instance, invoking a fit/display method
(`migrad`, `hesse`, `minos`), or something else. -/
inductive CellStep
  | importLib
  | defineObjective
  | patchMetadata
  | constructMinimizer
  | fitMethod
  | otherStep
deriving DecidableEq

/-- The Cython notebook as an ordered list of steps: cell 1 imports, cell 2
compiles `cython_func`, cell 3 attempts `Minuit(cython_func)`, cell 4 runs
`Minuit(cython_func, name=("x","y","z"))` and `m.migrad()`, cell 5 compiles
`cython_f` with `embedsignature(True)`, cell 6 runs `Minuit(cython_f)` and
`m.migrad()`. -/
def cythonNotebook : List CellStep :=
  [CellStep.importLib, CellStep.defineObjective, CellStep.constructMinimizer,
   CellStep.constructMinimizer, CellStep.fitMethod, CellStep.defineObjective,
   CellStep.constructMinimizer, CellStep.fitMethod]

/-- The generic least-squares notebook as an ordered list of steps: cell 1
imports, cell 2 defines `LeastSquares`, cell 3 defines `line`, constructs
`lsq` and attempts `Minuit(lsq)`, cell 4 displays `describe(line)[1:]`,
cell 5 attaches `lsq.func_code`, cell 6 defines `BetterLeastSquares`,
cell 7 constructs it (attaching func_code in `__init__`), cell 8 runs
`Minuit(lsq)` and `m.migrad()`. -/
def leastSquaresNotebook : List CellStep :=
  [CellStep.importLib, CellStep.defineObjective, CellStep.defineObjective,
   CellStep.constructMinimizer, CellStep.otherStep, CellStep.patchMetadata,
   CellStep.defineObjective, CellStep.defineObjective, CellStep.patchMetadata,
   CellStep.constructMinimizer, CellStep.fitMethod]

/-- The external-minimizer notebook as an ordered list of steps: cell 1
imports, cell 2 defines `nll` and minimizes it with scipy, cell 3 runs
`Minuit.from_array_func` and `m.hesse()`, the next code cell sets `m.args`
and runs `m.hesse()`, the last runs `m.minos()`. -/
def externalMinimizerNotebook : List CellStep :=
  [CellStep.importLib, CellStep.defineObjective, CellStep.otherStep,
   CellStep.constructMinimizer, CellStep.fitMethod, CellStep.otherStep,
   CellStep.fitMethod, CellStep.fitMethod]

/-- The phase number a step occupies in the claimed linear order
(import, define, patch, fit); steps the order does not mention get no
phase. -/
def stepPhase : CellStep → Option Nat
  | CellStep.importLib => some 0
  | CellStep.defineObjective => some 1
  | CellStep.patchMetadata => some 2
  | CellStep.fitMethod => some 3
  | _ => none

/-- A list of naturals is nondecreasing. -/
def nondecreasing : List Nat → Bool
  | [] => true
  | [_] => true
  | a :: b :: rest => decide (a ≤ b) && nondecreasing (b :: rest)

/-- A notebook follows the claimed linear step order when the phases of its
import/define/patch/fit steps, in cell order, never decrease. -/
def linearStepOrder (nb : List CellStep) : Bool :=
  nondecreasing (nb.filterMap stepPhase)

/-- Every fit-method step is preceded by some objective-definition step.
The flag records whether an objective has already been defined. -/
def objectiveBeforeFits : Bool → List CellStep → Bool
  | _, [] => true
  | seen, s :: rest =>
    match s with
    | CellStep.defineObjective => objectiveBeforeFits true rest
    | CellStep.fitMethod => seen && objectiveBeforeFits seen rest
    | _ => objectiveBeforeFits seen rest

theorem npChi2_eq_sum (g : ℚ → ℚ) :
    ∀ (ys xs : List ℚ), xs.length = ys.length →
      npSum (npSquare (npSub ys (xs.map g)))
        = ∑ i in Finset.range ys.length, (ys.getD i 0 - g (xs.getD i 0)) ^ 2 := by
  intro ys
  induction ys with
  | nil =>
    intro xs h
    simp [npSum, npSquare, npSub]
  | cons y ys ih =>
    intro xs h
    cases xs with
    | nil => simp at h
    | cons x xs =>
      have hx : xs.length = ys.length := by simpa using h
      simp only [npSum, npSquare, npSub, List.map_cons, List.zipWith_cons_cons,
        List.sum_cons, List.length_cons]
      rw [Finset.sum_range_succ']
      simp only [List.getD_cons_succ, List.getD_cons_zero]
      have hrec := ih xs hx
      simp only [npSum, npSquare, npSub] at hrec
      rw [hrec]
      ring

theorem npSum_sq_nonneg (l : List ℚ) : 0 ≤ npSum (npSquare l) := by
  apply List.sum_nonneg
  intro a ha
  simp only [npSquare, List.mem_map] at ha
  obtain ⟨b, _, rfl⟩ := ha
  exact sq_nonneg b

/-- Claim C1: for every model function whose introspected parameter-name
list is non-empty, after a LeastSquares-style wrapper has the synthesized
signature metadata `make_func_code(describe(model)[1:])` attached as its
func_code, calling describe on the wrapper returns exactly that name list
(the model's parameter names with the leading independent variable removed,
in the same order), and nothing else. -/
theorem describe_after_attach (model : ℚ → List ℚ → ℚ) (msig : Callable)
    (x y : List ℚ) (names : List String)
    (hd : describe msig = Except.ok names) (hne : names ≠ []) :
    ∃ b : BetterLeastSquares,
      BetterLeastSquares.init model msig x y = Except.ok b ∧
      describe b.asCallable = Except.ok (names.drop 1) := by
  refine ⟨⟨⟨model, x, y⟩, make_func_code (names.drop 1)⟩, ?_, rfl⟩
  unfold BetterLeastSquares.init
  rw [hd]
  rfl

/-- Witness for C1 at the notebook's model `line(x, a, b)`. -/
theorem describe_after_attach_witness :
    describe line_sig = Except.ok ["x", "a", "b"] ∧
    (["x", "a", "b"] : List String) ≠ [] ∧
    ∃ b : BetterLeastSquares,
      BetterLeastSquares.init line line_sig x_data y_data = Except.ok b ∧
      describe b.asCallable = Except.ok (["x", "a", "b"].drop 1) :=
  ⟨rfl, by decide,
   describe_after_attach line line_sig x_data y_data ["x", "a", "b"] rfl (by decide)⟩

/-- Claim C2: `BetterLeastSquares.__init__(model, x, y)` synthesizes its
signature metadata by taking the model's introspected parameter names,
removing exactly the first (leading independent-variable) name and no
other, preserving the relative order of the remaining names, and attaching
the resulting list as the wrapper's func_code. -/
theorem init_strips_first_name (model : ℚ → List ℚ → ℚ) (msig : Callable)
    (x y : List ℚ) (v : String) (rest : List String)
    (hd : describe msig = Except.ok (v :: rest)) :
    ∃ b : BetterLeastSquares,
      BetterLeastSquares.init model msig x y = Except.ok b ∧
      b.func_code = make_func_code rest := by
  refine ⟨⟨⟨model, x, y⟩, make_func_code rest⟩, ?_, rfl⟩
  unfold BetterLeastSquares.init
  rw [hd]
  rfl

/-- Witness for C2: for the model `line` with parameters `(x, a, b)` the
attached name list is `["a", "b"]`. -/
theorem init_strips_first_name_witness :
    describe line_sig = Except.ok ("x" :: ["a", "b"]) ∧
    ∃ b : BetterLeastSquares,
      BetterLeastSquares.init line line_sig x_data y_data = Except.ok b ∧
      b.func_code = make_func_code ["a", "b"] :=
  ⟨rfl, init_strips_first_name line line_sig x_data y_data "x" ["a", "b"] rfl⟩

/-- Claim C3: for every callable whose parameter names cannot be determined
by introspection — a compiled function without embedded signature metadata,
or a wrapper whose call is variadic and that carries no attached
func_code — constructing Minuit on it raises
`TypeError("Unable to obtain function signature")`; construction fails
rather than silently guessing names. -/
theorem construct_fails_without_signature (c : Callable)
    (h1 : c.nativeSig = none) (h2 : c.func_code = none) :
    Minuit.construct c none = Except.error "Unable to obtain function signature" := by
  simp [Minuit.construct, describe, h1, h2]

/-- Witness for C3 at both notebook cases: the compiled `cython_func` and
the unpatched `LeastSquares` wrapper. -/
theorem construct_fails_without_signature_witness :
    cython_func_sig.nativeSig = none ∧ cython_func_sig.func_code = none ∧
    Minuit.construct cython_func_sig none =
      Except.error "Unable to obtain function signature" ∧
    lsq_example.asCallable.nativeSig = none ∧
    lsq_example.asCallable.func_code = none ∧
    Minuit.construct lsq_example.asCallable none =
      Except.error "Unable to obtain function signature" :=
  ⟨rfl, rfl, construct_fails_without_signature cython_func_sig rfl rfl,
   rfl, rfl, construct_fails_without_signature lsq_example.asCallable rfl rfl⟩

/-- Claim C4: when introspection of a callable is unavailable, supplying
the parameter names explicitly at Minuit construction is a sufficient
remedy — for a callable whose bare construction raises TypeError,
construction with an explicit name tuple succeeds and binds exactly those
names, in order, to the fit variables. -/
theorem explicit_names_remedy (c : Callable) (ns : List String)
    (h : Minuit.construct c none =
      Except.error "Unable to obtain function signature") :
    Minuit.construct c (some ns) = Except.ok ns :=
  rfl

/-- Witness for C4 at the compiled `cython_func` with the notebook's
explicit names `("x", "y", "z")`. -/
theorem explicit_names_remedy_witness :
    Minuit.construct cython_func_sig none =
      Except.error "Unable to obtain function signature" ∧
    Minuit.construct cython_func_sig (some ["x", "y", "z"]) =
      Except.ok ["x", "y", "z"] :=
  ⟨rfl, explicit_names_remedy cython_func_sig ["x", "y", "z"] rfl⟩

/-- Claim C5: each of the three parameter-binding strategies the repository
exercises constructs a working Minuit instance — (a) a callable with a
concrete introspectable signature, (b) an explicit list of parameter names,
(c) a callable carrying attached func_code metadata — and under each
strategy the minimizer discovers exactly one fit variable per parameter
name, in order.  The last two conjuncts instantiate (a) at the notebook's
`cython_f` (compiled with `embedsignature(True)`) and (c) at
`BetterLeastSquares(line, x_data, y_data)`. -/
theorem binding_strategies_succeed (aNames bNames cNames : List String)
    (c : Callable) :
    Minuit.construct ⟨some aNames, none⟩ none = Except.ok aNames ∧
    Minuit.construct c (some bNames) = Except.ok bNames ∧
    Minuit.construct ⟨none, some cNames⟩ none = Except.ok cNames ∧
    Minuit.construct cython_f_sig none = Except.ok ["x", "y", "z"] ∧
    Minuit.construct bls_example.asCallable none = Except.ok ["a", "b"] :=
  ⟨rfl, rfl, rfl, rfl, rfl⟩

/-- Counterexample to C6 as stated: it is not the case that every error
demonstrated in the repository's notebooks is the signature-discovery
TypeError — the external-minimizer notebook demonstrates a RuntimeError
raised by `minos`. -/
theorem not_only_typeError_demonstrated :
    ¬ (∀ e ∈ allNotebookErrors, e.kind = ErrKind.typeError) := by
  decide

/-- Claim C6 amended: every error demonstrated in the Cython and generic
least-squares notebooks is the signature-discovery TypeError, while the
external-minimizer notebook demonstrates exactly one further error, the
RuntimeError raised by `minos` when no MIGRAD minimum exists. -/
theorem notebook_errors_classified :
    (∀ e ∈ cythonNotebookErrors ++ leastSquaresNotebookErrors,
        e.kind = ErrKind.typeError ∧
        e.msg = "Unable to obtain function signature") ∧
    ∀ e ∈ externalMinimizerNotebookErrors,
        e.kind = ErrKind.runtimeError ∧
        e.msg = "MINOS require function to be at the minimum. Run MIGRAD first." := by
  decide

/-- Counterexample to C7 as stated: the Cython notebook does not follow the
strict import-define-patch-fit phase order, because it compiles a second
objective function (`cython_f`) after the first `migrad` call. -/
theorem cython_notebook_breaks_phase_order :
    ¬ (cythonNotebook.head? = some CellStep.importLib ∧
       linearStepOrder cythonNotebook = true ∧
       objectiveBeforeFits false cythonNotebook = true) := by
  decide

/-- Claim C7 amended: every notebook starts by importing the optimizer
library, and no fit/display method (`migrad`, `hesse`, `minos`) is invoked
before an objective function has been defined; the strict global phase
order of the original claim does not hold. -/
theorem notebooks_import_first_fit_after_objective :
    (cythonNotebook.head? = some CellStep.importLib ∧
     objectiveBeforeFits false cythonNotebook = true) ∧
    (leastSquaresNotebook.head? = some CellStep.importLib ∧
     objectiveBeforeFits false leastSquaresNotebook = true) ∧
    (externalMinimizerNotebook.head? = some CellStep.importLib ∧
     objectiveBeforeFits false externalMinimizerNotebook = true) := by
  decide

/-- Claim C8: for data arrays of equal length and any parameter tuple, over
exact rational arithmetic, `LeastSquares(model, x, y)(*par)` equals the sum
over data points of `(y_i - model(x_i, par))^2`; hence the returned chi2 is
non-negative, and it is zero exactly when the model reproduces every y
value. -/
theorem LeastSquares_call_chi2 (s : LeastSquares) (par : List ℚ)
    (h : s.x.length = s.y.length) :
    s.call par = ∑ i in Finset.range s.y.length,
        (s.y.getD i 0 - s.model (s.x.getD i 0) par) ^ 2 ∧
    0 ≤ s.call par ∧
    (s.call par = 0 ↔
      ∀ i < s.y.length, s.model (s.x.getD i 0) par = s.y.getD i 0) := by
  have key : s.call par = ∑ i in Finset.range s.y.length,
      (s.y.getD i 0 - s.model (s.x.getD i 0) par) ^ 2 := by
    unfold LeastSquares.call
    exact npChi2_eq_sum (fun t => s.model t par) s.y s.x h
  refine ⟨key, ?_, ?_⟩
  · unfold LeastSquares.call
    exact npSum_sq_nonneg _
  · rw [key, Finset.sum_eq_zero_iff_of_nonneg (fun i _ => sq_nonneg _)]
    constructor
    · intro hz i hi
      have h0 := hz i (Finset.mem_range.mpr hi)
      have h1 : s.y.getD i 0 - s.model (s.x.getD i 0) par = 0 :=
        sq_eq_zero_iff.mp h0
      exact (sub_eq_zero.mp h1).symm
    · intro hm i hi
      rw [hm i (Finset.mem_range.mp hi)]
      simp

/-- Witness for C8 at the notebook's data with parameters `a = 0, b = 2`
(the exact fit found by migrad). -/
theorem LeastSquares_call_chi2_witness :
    lsq_example.x.length = lsq_example.y.length ∧
    (lsq_example.call [0, 2] = ∑ i in Finset.range lsq_example.y.length,
        (lsq_example.y.getD i 0 -
          lsq_example.model (lsq_example.x.getD i 0) [0, 2]) ^ 2 ∧
     0 ≤ lsq_example.call [0, 2] ∧
     (lsq_example.call [0, 2] = 0 ↔
        ∀ i < lsq_example.y.length,
          lsq_example.model (lsq_example.x.getD i 0) [0, 2] =
            lsq_example.y.getD i 0)) :=
  ⟨rfl, LeastSquares_call_chi2 lsq_example [0, 2] rfl⟩

/-- Claim C9: `BetterLeastSquares(model, x, y)(*par)` returns the same chi2
value as `LeastSquares(model, x, y)(*par)` — the attached func_code changes
only the signature metadata and leaves the inherited call computation
unchanged. -/
theorem BetterLeastSquares_call_eq (model : ℚ → List ℚ → ℚ) (msig : Callable)
    (x y : List ℚ) (b : BetterLeastSquares) (par : List ℚ)
    (h : BetterLeastSquares.init model msig x y = Except.ok b) :
    b.call par = LeastSquares.call ⟨model, x, y⟩ par := by
  unfold BetterLeastSquares.init at h
  cases hd : describe msig with
  | ok names =>
    rw [hd] at h
    simp only [Except.map] at h
    injection h with h2
    subst h2
    rfl
  | error e =>
    rw [hd] at h
    simp only [Except.map] at h
    exact Except.noConfusion h

/-- Witness for C9 at the notebook's model and data. -/
theorem BetterLeastSquares_call_eq_witness :
    BetterLeastSquares.init line line_sig x_data y_data = Except.ok bls_example ∧
    bls_example.call [0, 2] = LeastSquares.call ⟨line, x_data, y_data⟩ [0, 2] :=
  ⟨rfl,
   BetterLeastSquares_call_eq line line_sig x_data y_data bls_example [0, 2] rfl⟩

/-- Claim C10: a Minuit instance initialized from an external minimizer's
result via `from_array_func` supports `hesse` without any prior `migrad`
call — it succeeds and reports errors at the current parameter values,
including values set by assigning `m.args` — whereas `minos` in the same
state raises RuntimeError because it requires a function minimum produced
by MIGRAD. -/
theorem from_array_func_hesse_minos (start v : List ℚ) :
    (Minuit.from_array_func start).hesse = Except.ok start ∧
    ((Minuit.from_array_func start).setArgs v).hesse = Except.ok v ∧
    (Minuit.from_array_func start).minos =
      Except.error "MINOS require function to be at the minimum. Run MIGRAD first." ∧
    ((Minuit.from_array_func start).setArgs v).minos =
      Except.error "MINOS require function to be at the minimum. Run MIGRAD first." :=
  ⟨rfl, rfl, rfl, rfl⟩
